import Mathlib

/-!
Verification development for the upgrade-impact-python repository.

The definitions below are shallow embeddings of the Python sources under
`src/upgrade_analyzer/`.  Python floats are modelled as rationals (all score
arithmetic in the sources stays exact in binary floating point on the inputs
considered), Python `None`-able values as `Option`, Python dicts as
association lists with most-recent-binding-first lookup.

External collaborators (the `packaging` version parser and the `griffe`
API-object loader) are modelled as explicit parameters / inductive trees:
they are third-party libraries, not code of this repository.
-/

namespace UpgradeAnalyzer

/-- models.py `Severity`. -/
inductive Severity where
  | low
  | medium
  | high
  | critical
deriving DecidableEq, Repr

/-- models.py `ChangeType`. -/
inductive ChangeType where
  | removed
  | modified
  | deprecated
  | added
deriving DecidableEq, Repr

/-- models.py `Dependency` (fields relevant to risk scoring). -/
structure Dependency where
  name : String
  current_version : String
  target_version : Option String := none
deriving DecidableEq, Repr

/-- models.py `UsageNode`. -/
structure UsageNode where
  package_name : String
  symbol_path : String
  file_path : String
  line_numbers : List Nat := []
  call_count : Nat := 0
deriving DecidableEq, Repr

/-- models.py `CallSite` (argument-text extraction via `ast.unparse` is a
rendering concern of the host `ast` library; the call identity consists of
the matched symbol and the line number). -/
structure CallSite where
  symbol : String
  line_number : Nat
deriving DecidableEq, Repr

/-- models.py `ChangelogEntry`. -/
structure ChangelogEntry where
  version : String
  release_date : Option String := none
  content : String := ""
  severity_keywords : List (String × Severity) := []
deriving DecidableEq, Repr

/-- models.py `APIChange`. -/
structure APIChange where
  symbol_name : String
  change_type : ChangeType
  old_signature : Option String := none
  new_signature : Option String := none
  description : String := ""
deriving DecidableEq, Repr

/-- models.py `RiskFactor`. -/
structure RiskFactor where
  name : String
  score : ℚ
  weight : ℚ
  description : String
deriving DecidableEq, Repr

/-- models.py `RiskScore`. -/
structure RiskScore where
  total_score : ℚ
  severity : Severity
  factors : List RiskFactor := []
deriving DecidableEq, Repr

/-- models.py `RiskScore.from_score`: severity from the numeric score. -/
def RiskScore.from_score (score : ℚ) : Severity :=
  if score ≥ 80 then Severity.critical
  else if score ≥ 60 then Severity.high
  else if score ≥ 30 then Severity.medium
  else Severity.low

/-- Python `min` on two floats, as used throughout the scoring code. -/
def ratMin (a b : ℚ) : ℚ := if a ≤ b then a else b

/-! ## resolver.py : version distance -/

/-- Result dictionary of `DependencyResolver.calculate_version_distance`. -/
structure VersionDistance where
  major : Nat
  minor : Nat
  patch : Nat
deriving DecidableEq, Repr

/-- `release[i] if len(release) > i else 0` in
`DependencyResolver.calculate_version_distance`. -/
def relComp (r : List Nat) (i : Nat) : Nat := r.getD i 0

/-- resolver.py `DependencyResolver.calculate_version_distance`.  The PEP 440
parser of the external `packaging` library is the parameter `parse`, giving
the release tuple of a version string, or `none` for `InvalidVersion`; on a
parse failure the method returns the all-zero distance. -/
def calculate_version_distance (parse : String → Option (List Nat))
    (v1 v2 : String) : VersionDistance :=
  match parse v1, parse v2 with
  | some r1, some r2 =>
      { major := Nat.dist (relComp r2 0) (relComp r1 0)
        minor := Nat.dist (relComp r2 1) (relComp r1 1)
        patch := Nat.dist (relComp r2 2) (relComp r1 2) }
  | _, _ => { major := 0, minor := 0, patch := 0 }

/-! ## changelog_nlp.py : ChangelogAnalyzer -/

/-- Leading-segment comparison of character lists (`sub` begins `s`). -/
def leadMatch : List Char → List Char → Bool
  | [], _ => true
  | _ :: _, [] => false
  | a :: as, b :: bs => a = b && leadMatch as bs

/-- Occurrence of `sub` anywhere inside `s` (character lists). -/
def findSub (sub : List Char) : List Char → Bool
  | [] => leadMatch sub []
  | c :: rest => leadMatch sub (c :: rest) || findSub sub rest

/-- Python `sub in s` on strings. -/
def strContains (s sub : String) : Bool := findSub sub.data s.data

/-- changelog_nlp.py `ChangelogAnalyzer.CRITICAL_KEYWORDS`. -/
def CRITICAL_KEYWORDS : List String :=
  ["removed", "deleted", "breaking change", "breaking", "incompatible",
   "no longer supported", "no longer", "dropped support", "dropped"]

/-- changelog_nlp.py `ChangelogAnalyzer.HIGH_KEYWORDS`. -/
def HIGH_KEYWORDS : List String :=
  ["deprecated", "renamed", "changed behavior", "behavior change",
   "major change", "migration required", "must migrate"]

/-- changelog_nlp.py `ChangelogAnalyzer.MEDIUM_KEYWORDS`. -/
def MEDIUM_KEYWORDS : List String :=
  ["changed", "modified", "updated", "migrated", "refactored", "replaced"]

/-- changelog_nlp.py `ChangelogAnalyzer.LOW_KEYWORDS`. -/
def LOW_KEYWORDS : List String :=
  ["added", "improved", "enhanced", "optimized", "fixed", "bugfix"]

/-- changelog_nlp.py `ChangelogAnalyzer.analyze_changelog`. -/
def analyze_changelog (e : ChangelogEntry) : ChangelogEntry :=
  let cl := e.content.toLower
  let kws : List (String × Severity) :=
    ((CRITICAL_KEYWORDS.filter (fun k => strContains cl k)).map
      (fun k => (k, Severity.critical))) ++
    ((HIGH_KEYWORDS.filter (fun k => strContains cl k)).map
      (fun k => (k, Severity.high))) ++
    ((MEDIUM_KEYWORDS.filter (fun k => strContains cl k)).map
      (fun k => (k, Severity.medium))) ++
    ((LOW_KEYWORDS.filter (fun k => strContains cl k)).map
      (fun k => (k, Severity.low)))
  { e with severity_keywords := kws }

/-- changelog_nlp.py severity weight table of
`calculate_changelog_severity_score`. -/
def severityWeight : Severity → ℚ
  | Severity.critical => 100
  | Severity.high => 70
  | Severity.medium => 40
  | Severity.low => 10

/-- changelog_nlp.py `ChangelogAnalyzer.calculate_changelog_severity_score`. -/
def calculate_changelog_severity_score (e : ChangelogEntry) : ℚ :=
  if e.severity_keywords = [] then 0
  else
    let total := (e.severity_keywords.map (fun p => severityWeight p.2)).sum
    ratMin (total / e.severity_keywords.length) 100

/-- changelog_nlp.py `ChangelogAnalyzer.analyze_multiple_entries`. -/
def analyze_multiple_entries (entries : List ChangelogEntry) :
    List ChangelogEntry :=
  entries.map analyze_changelog

/-! ## risk_scorer.py : RiskScorer -/

/-- The three configured weights read by `RiskScorer` via
`Config.semver_weight` / `usage_weight` / `changelog_weight`. -/
structure RiskWeights where
  semver_weight : ℚ
  usage_weight : ℚ
  changelog_weight : ℚ
deriving DecidableEq, Repr

/-- The default weights of config.py `_get_defaults` (`0.3 / 0.5 / 0.2`). -/
def defaultWeights : RiskWeights :=
  { semver_weight := 3/10, usage_weight := 1/2, changelog_weight := 1/5 }

/-- risk_scorer.py `RiskScorer._calculate_semver_risk`. -/
def calculate_semver_risk (parse : String → Option (List Nat))
    (dep : Dependency) : ℚ :=
  match dep.target_version with
  | none => 0
  | some tv =>
    let d := calculate_version_distance parse dep.current_version tv
    if d.major > 0 then ratMin (80 + ((d.major : ℚ) - 1) * 20) 100
    else if d.minor > 0 then ratMin (40 + (d.minor : ℚ) * 5) 60
    else ratMin (10 + (d.patch : ℚ) * 2) 20

/-- risk_scorer.py `RiskScorer._calculate_usage_impact`. -/
def calculate_usage_impact (usage_nodes : List UsageNode)
    (api_changes : List APIChange) : ℚ :=
  if api_changes = [] then 0
  else
    let used_symbols := usage_nodes.map (fun n => n.symbol_path)
    let breaking_changes := api_changes.countP
      (fun c => c.symbol_name ∈ used_symbols ∧ c.change_type = ChangeType.removed)
    let moderate_changes := api_changes.countP
      (fun c => c.symbol_name ∈ used_symbols ∧ c.change_type = ChangeType.modified)
    let deprecations := api_changes.countP
      (fun c => c.symbol_name ∈ used_symbols ∧ c.change_type = ChangeType.deprecated)
    if breaking_changes > 0 then 100
    else if moderate_changes > 0 then ratMin (70 + (moderate_changes : ℚ) * 10) 90
    else if deprecations > 0 then ratMin (40 + (deprecations : ℚ) * 10) 60
    else 10

/-- risk_scorer.py `RiskScorer._calculate_changelog_severity`. -/
def calculate_changelog_severity (entries : List ChangelogEntry) : ℚ :=
  if entries = [] then 0
  else
    let analyzed := analyze_multiple_entries entries
    let scores := analyzed.map calculate_changelog_severity_score
    if scores ≠ [] then scores.sum / scores.length else 0

/-- risk_scorer.py `RiskScorer.calculate_risk`. -/
def calculate_risk (w : RiskWeights) (parse : String → Option (List Nat))
    (dep : Dependency) (usage_nodes : List UsageNode)
    (api_changes : List APIChange) (changelog_entries : List ChangelogEntry) :
    RiskScore :=
  let semver_score := calculate_semver_risk parse dep
  let usage_score := calculate_usage_impact usage_nodes api_changes
  let changelog_score := calculate_changelog_severity changelog_entries
  let factors : List RiskFactor :=
    [ { name := "SemVer Distance", score := semver_score,
        weight := w.semver_weight,
        description := s!"Version jump from {dep.current_version} to {dep.target_version}" },
      { name := "Usage Impact", score := usage_score,
        weight := w.usage_weight,
        description := s!"{api_changes.length} API changes affecting {usage_nodes.length} usage points" },
      { name := "Changelog Severity", score := changelog_score,
        weight := w.changelog_weight,
        description := s!"Based on {changelog_entries.length} changelog entries" } ]
  let total_score := (factors.map (fun f => f.score * f.weight)).sum
  { total_score := total_score
    severity := RiskScore.from_score total_score
    factors := factors }

/-! ## config.py : Config -/

/-- The `risk_scoring` table of a configuration file, restricted to the three
weight keys read by the scorer (config.py `_get_defaults` /
`Config.semver_weight` etc.). -/
structure RiskScoringSection where
  semver_weight : Option ℚ := none
  usage_weight : Option ℚ := none
  changelog_weight : Option ℚ := none
deriving DecidableEq, Repr

/-- A parsed TOML configuration document, restricted to the `risk_scoring`
top-level key (the only one the risk scorer reads). -/
structure ConfigData where
  risk_scoring : Option RiskScoringSection := none
deriving DecidableEq, Repr

/-- The `risk_scoring` defaults of config.py `_get_defaults`. -/
def defaultRiskScoring : RiskScoringSection :=
  { semver_weight := some (3/10)
    usage_weight := some (1/2)
    changelog_weight := some (1/5) }

/-- config.py `Config._load_config`: start from the defaults and, when a
configuration file parses, apply `config.update(file_config)` — a shallow
dict update replacing each top-level key present in the file.  `none` models
both the no-file case and a TOML parse error (which is logged and ignored).
Loading is total: no configuration is ever rejected. -/
def loadConfig : Option ConfigData → ConfigData
  | none => { risk_scoring := some defaultRiskScoring }
  | some fc =>
    match fc.risk_scoring with
    | some rs => { risk_scoring := some rs }
    | none => { risk_scoring := some defaultRiskScoring }

/-- config.py `Config.semver_weight`: `self.get("risk_scoring.semver_weight", 0.3)`. -/
def configSemverWeight (c : ConfigData) : ℚ :=
  match c.risk_scoring with
  | some rs => rs.semver_weight.getD (3/10)
  | none => 3/10

/-- config.py `Config.usage_weight`: `self.get("risk_scoring.usage_weight", 0.5)`. -/
def configUsageWeight (c : ConfigData) : ℚ :=
  match c.risk_scoring with
  | some rs => rs.usage_weight.getD (1/2)
  | none => 1/2

/-- config.py `Config.changelog_weight`: `self.get("risk_scoring.changelog_weight", 0.2)`. -/
def configChangelogWeight (c : ConfigData) : ℚ :=
  match c.risk_scoring with
  | some rs => rs.changelog_weight.getD (1/5)
  | none => 1/5

/-- Sum of the three configured risk weights. -/
def configWeightSum (c : ConfigData) : ℚ :=
  configSemverWeight c + configUsageWeight c + configChangelogWeight c

/-! ## api_differ.py : APIDiffer -/

/-- A `griffe` API object as inspected by `APIDiffer`: an attribute
`parameters` when the object is callable (`none` models a missing
attribute), the `str(symbol)` rendering, an optional docstring, decorator
renderings, and named members. -/
inductive ApiObj where
  | mk (parameters : Option (List String)) (rendered : String)
       (docstring : Option String) (decorators : List String)
       (members : List (String × ApiObj))

/-- Member table of an API object. -/
def ApiObj.members : ApiObj → List (String × ApiObj)
  | ApiObj.mk _ _ _ _ ms => ms

/-- Parameter renderings of an API object, when it has a `parameters`
attribute. -/
def ApiObj.parameters : ApiObj → Option (List String)
  | ApiObj.mk ps _ _ _ _ => ps

/-- `str(symbol)` rendering of an API object. -/
def ApiObj.rendered : ApiObj → String
  | ApiObj.mk _ r _ _ _ => r

/-- Docstring of an API object, when present. -/
def ApiObj.docstring : ApiObj → Option String
  | ApiObj.mk _ _ d _ _ => d

/-- Decorator renderings of an API object. -/
def ApiObj.decorators : ApiObj → List String
  | ApiObj.mk _ _ _ ds _ => ds

/-- Member walk of api_differ.py `APIDiffer._get_symbol`: follow each path
segment through `obj.members`. -/
def getSymbolAux : ApiObj → List String → Option ApiObj
  | obj, [] => some obj
  | obj, p :: ps =>
    match obj.members.lookup p with
    | some o => getSymbolAux o ps
    | none => none

/-- Python `s.split(".")` on character lists. -/
def splitDotChars : List Char → List (List Char)
  | [] => [[]]
  | c :: cs =>
    let r := splitDotChars cs
    if c = '.' then [] :: r
    else
      match r with
      | g :: gs => (c :: g) :: gs
      | [] => [[c]]

/-- Python `s.split(".")`. -/
def splitOnDot (s : String) : List String :=
  (splitDotChars s.data).map (fun l => String.mk l)

/-- api_differ.py `APIDiffer._get_symbol`: split the path on dots, skip the
package-name segment, walk the member tables. -/
def getSymbol (api : ApiObj) (symbol_path : String) : Option ApiObj :=
  getSymbolAux api ((splitOnDot symbol_path).drop 1)

/-- api_differ.py `APIDiffer._get_signature`. -/
def getSignature : Option ApiObj → String
  | none => ""
  | some obj =>
    match obj.parameters with
    | some ps => "(" ++ String.intercalate ", " ps ++ ")"
    | none => obj.rendered

/-- api_differ.py `APIDiffer._is_deprecated`: a docstring containing
`deprecated` (lower-cased), or a decorator rendering containing it. -/
def isDeprecatedObj : Option ApiObj → Bool
  | none => false
  | some obj =>
    (match obj.docstring with
     | some d =>
       strContains d.toLower "deprecated" || strContains d.toLower ".. deprecated::"
     | none => false) ||
    obj.decorators.any (fun d => strContains d.toLower "deprecated")

/-- api_differ.py `APIDiffer._detect_changes`, at one used symbol path:
the records appended by the loop iteration for `symbol_path`. -/
def detectChangesAt (old_api new_api : ApiObj) (symbol_path : String) :
    List APIChange :=
  match getSymbol old_api symbol_path, getSymbol new_api symbol_path with
  | some o, none =>
      [{ symbol_name := symbol_path, change_type := ChangeType.removed,
         old_signature := some (getSignature (some o)),
         description := s!"Symbol {symbol_path} was removed" }]
  | some o, some n =>
      let old_sig := getSignature (some o)
      let new_sig := getSignature (some n)
      (if old_sig ≠ new_sig then
        [{ symbol_name := symbol_path, change_type := ChangeType.modified,
           old_signature := some old_sig, new_signature := some new_sig,
           description := s!"Signature changed for {symbol_path}" }]
       else []) ++
      (if isDeprecatedObj (some n) then
        [{ symbol_name := symbol_path, change_type := ChangeType.deprecated,
           new_signature := some new_sig,
           description := s!"{symbol_path} is now deprecated" }]
       else [])
  | none, _ => []

/-- api_differ.py `APIDiffer._detect_changes`: iterate over the set
`{node.symbol_path for node in used_symbols}` (modelled as the deduplicated
path list) and collect the changes of each used symbol. -/
def detect_changes (old_api new_api : ApiObj) (used_symbols : List UsageNode) :
    List APIChange :=
  let symbol_paths := (used_symbols.map (fun n => n.symbol_path)).dedup
  symbol_paths.flatMap (detectChangesAt old_api new_api)

/-- One entry of the JSON cache array written by
api_differ.py `APIDiffer._serialize_changes`. -/
structure CachedChange where
  symbol_name : String
  change_type : String
  old_signature : Option String
  new_signature : Option String
  description : String
deriving DecidableEq, Repr

/-- models.py `ChangeType.value`. -/
def ChangeType.value : ChangeType → String
  | ChangeType.removed => "removed"
  | ChangeType.modified => "modified"
  | ChangeType.deprecated => "deprecated"
  | ChangeType.added => "added"

/-- Python `ChangeType(s)`: look a value string up in the enum, `none`
modelling the `ValueError`. -/
def changeTypeOfValue (s : String) : Option ChangeType :=
  if s = "removed" then some ChangeType.removed
  else if s = "modified" then some ChangeType.modified
  else if s = "deprecated" then some ChangeType.deprecated
  else if s = "added" then some ChangeType.added
  else none

/-- api_differ.py `APIDiffer._serialize_changes`. -/
def serialize_changes (changes : List APIChange) : List CachedChange :=
  changes.map (fun c =>
    { symbol_name := c.symbol_name
      change_type := c.change_type.value
      old_signature := c.old_signature
      new_signature := c.new_signature
      description := c.description })

/-- api_differ.py `APIDiffer._deserialize_changes`: rebuild each `APIChange`,
skipping an entry whose change-type string raises `ValueError`. -/
def deserialize_changes (cached : List CachedChange) : List APIChange :=
  cached.flatMap (fun ch =>
    match changeTypeOfValue ch.change_type with
    | some ct =>
        [{ symbol_name := ch.symbol_name
           change_type := ct
           old_signature := ch.old_signature
           new_signature := ch.new_signature
           description := ch.description }]
    | none => [])

/-! ## scanner/ast_analyzer.py : ASTAnalyzer -/

/-- A Python expression as inspected by `ASTAnalyzer` (`ast.Name`,
`ast.Attribute`, `ast.Call`; `lit` stands for every other expression kind,
none of which the analyzer matches on). -/
inductive PyExpr where
  | name (id : String)
  | attr (value : PyExpr) (attrName : String)
  | call (func : PyExpr) (args : List PyExpr) (lineno : Nat)
  | lit (text : String)

/-- A Python statement as inspected by `ASTAnalyzer`: `ast.Import` and
`ast.ImportFrom` carry `(name, asname)` pairs, every other statement only
contributes the expressions inside it. -/
inductive PyStmt where
  | imp (names : List (String × Option String))
  | impFrom (module : Option String) (names : List (String × Option String))
  | expr (e : PyExpr)

/-- A parsed Python module body. -/
abbrev PyModule := List PyStmt

/-- The two alias dicts built by `ASTAnalyzer._build_alias_maps`
(`_import_aliases` and `_symbol_aliases`), as association lists whose head
is the most recent insertion — Python dict assignment is last-write-wins,
`List.lookup` finds the head first. -/
structure AliasMaps where
  import_aliases : List (String × String) := []
  symbol_aliases : List (String × String) := []
deriving DecidableEq, Repr

/-- `ast.Import` handling in `_build_alias_maps`: `import P as A` records
`A → P`, `import P` records `P → P`. -/
def recordImport (m : List (String × String))
    (names : List (String × Option String)) : List (String × String) :=
  names.foldl (fun acc p =>
    match p.2 with
    | some a => (a, p.1) :: acc
    | none => (p.1, p.1) :: acc) m

/-- `ast.ImportFrom` handling in `_build_alias_maps`: `from M import S as A`
records `A → M.S` (local name `S` when no `as`), skipping star imports. -/
def recordImportFrom (m : List (String × String)) (module : String)
    (names : List (String × Option String)) : List (String × String) :=
  names.foldl (fun acc p =>
    if p.1 = "*" then acc
    else (p.2.getD p.1, module ++ "." ++ p.1) :: acc) m

/-- ast_analyzer.py `ASTAnalyzer._build_alias_maps`: one walk over the tree
recording both import forms. -/
def buildAliasMaps (m : PyModule) : AliasMaps :=
  m.foldl (fun a st =>
    match st with
    | PyStmt.imp names =>
        { a with import_aliases := recordImport a.import_aliases names }
    | PyStmt.impFrom (some module) names =>
        { a with symbol_aliases := recordImportFrom a.symbol_aliases module names }
    | PyStmt.impFrom none _ => a
    | PyStmt.expr _ => a) {}

mutual

/-- All `ast.Call` nodes inside one expression (the call nodes visited by
`ast.walk`). -/
def collectCallsExpr : PyExpr → List PyExpr
  | PyExpr.name _ => []
  | PyExpr.lit _ => []
  | PyExpr.attr v _ => collectCallsExpr v
  | PyExpr.call f args l =>
      PyExpr.call f args l :: (collectCallsExpr f ++ collectCallsArgs args)

/-- All `ast.Call` nodes inside an argument list. -/
def collectCallsArgs : List PyExpr → List PyExpr
  | [] => []
  | e :: es => collectCallsExpr e ++ collectCallsArgs es

end

/-- All `ast.Call` nodes of a module body. -/
def collectCalls (m : PyModule) : List PyExpr :=
  m.flatMap (fun st =>
    match st with
    | PyStmt.expr e => collectCallsExpr e
    | _ => [])

/-- Python `s.split(".")[0]`. -/
def headSeg (s : String) : String := (splitOnDot s).headD ""

/-- ast_analyzer.py `ASTAnalyzer._is_matching_call`. -/
def isMatchingCall (a : AliasMaps) (func_node : PyExpr)
    (module_name func_name full_symbol_path : String) : Bool :=
  match func_node with
  | PyExpr.attr v attrName =>
    if attrName = func_name then
      match v with
      | PyExpr.name value_name =>
        if value_name = headSeg module_name then true
        else
          match a.import_aliases.lookup value_name with
          | some resolved =>
              resolved ≠ "" && headSeg resolved = headSeg module_name
          | none => false
      | _ => false
    else false
  | PyExpr.name local_name =>
    if local_name = func_name then
      match a.symbol_aliases.lookup local_name with
      | some resolved => resolved = full_symbol_path || resolved = ""
      | none => true
    else false
  | _ => false

/-- ast_analyzer.py `ASTAnalyzer.find_symbol_usage`. -/
def find_symbol_usage (m : PyModule) (symbol_path : String) : List CallSite :=
  let a := buildAliasMaps m
  let parts := splitOnDot symbol_path
  if parts.length < 2 then []
  else
    let module_name := String.intercalate "." parts.dropLast
    let func_name := parts.getLastD ""
    (collectCalls m).filterMap (fun c =>
      match c with
      | PyExpr.call f _ l =>
          if isMatchingCall a f module_name func_name symbol_path then
            some { symbol := symbol_path, line_number := l }
          else none
      | _ => none)

/-- Python `s.endswith(suffix)`. -/
def strEnds (s suffix : String) : Bool :=
  leadMatch suffix.data.reverse s.data.reverse

/-- The per-call increment of the loop in
ast_analyzer.py `ASTAnalyzer.count_function_calls`: a bare-name call counts
once when its name equals `function_name` and once more when its
symbol-alias resolution (default `""`) ends with `"." + function_name`; an
attribute call counts once when its attribute equals `function_name`. -/
def callContribution (a : AliasMaps) (function_name : String) :
    PyExpr → Nat
  | PyExpr.call f _ _ =>
    (match f with
     | PyExpr.name id0 =>
         (if id0 = function_name then 1 else 0) +
         (if strEnds ((a.symbol_aliases.lookup id0).getD "")
              ("." ++ function_name) then 1 else 0)
     | PyExpr.attr _ attrName => if attrName = function_name then 1 else 0
     | _ => 0)
  | _ => 0

/-- ast_analyzer.py `ASTAnalyzer.count_function_calls`. -/
def count_function_calls (m : PyModule) (function_name : String) : Nat :=
  let a := buildAliasMaps m
  (collectCalls m).foldl (fun cnt c => cnt + callContribution a function_name c) 0

/-! ## Claim-side definitions

Each definition below follows the wording of a spec claim (not the source)
and is compared with the corresponding source-translated definition above. -/

/-- Usage-impact factor as the spec states it (claim C2): priority
classification of the api changes whose symbol name is in the used-symbol
set. -/
def specUsageImpact (usage_nodes : List UsageNode)
    (api_changes : List APIChange) : ℚ :=
  let used := usage_nodes.map (fun n => n.symbol_path)
  let countModified := api_changes.countP
    (fun c => c.symbol_name ∈ used ∧ c.change_type = ChangeType.modified)
  let countDeprecated := api_changes.countP
    (fun c => c.symbol_name ∈ used ∧ c.change_type = ChangeType.deprecated)
  if api_changes.any
      (fun c => c.symbol_name ∈ used ∧ c.change_type = ChangeType.removed) then
    100
  else if api_changes.any
      (fun c => c.symbol_name ∈ used ∧ c.change_type = ChangeType.modified) then
    ratMin (70 + 10 * (countModified : ℚ)) 90
  else if api_changes.any
      (fun c => c.symbol_name ∈ used ∧ c.change_type = ChangeType.deprecated) then
    ratMin (40 + 10 * (countDeprecated : ℚ)) 60
  else if api_changes ≠ [] ∧ api_changes.all (fun c => c.symbol_name ∉ used) then
    10
  else 0

/-- Semver factor as the spec states it (claim C3): the piecewise formula
over the absolute release-component differences. -/
def semverFormula (dMajor dMinor dPatch : Nat) : ℚ :=
  if dMajor ≥ 1 then ratMin (80 + ((dMajor : ℚ) - 1) * 20) 100
  else if dMinor ≥ 1 then ratMin (40 + (dMinor : ℚ) * 5) 60
  else ratMin (10 + (dPatch : ℚ) * 2) 20

/-- Call matching as the spec states it (claim C8): (i) a bare name that
alias-resolves via the symbol-alias map to the symbol path, or (ii) an
attribute call whose attribute is the leaf name and whose object is a simple
name that alias-resolves via the module-alias map to the module path. -/
def specMatchCall (a : AliasMaps) (symbol_path : String) (f : PyExpr) : Bool :=
  let leaf := (splitOnDot symbol_path).getLastD ""
  let modulePath := String.intercalate "." (splitOnDot symbol_path).dropLast
  match f with
  | PyExpr.name n => a.symbol_aliases.lookup n = some symbol_path
  | PyExpr.attr (PyExpr.name obj) atName =>
      atName = leaf && a.import_aliases.lookup obj = some modulePath
  | _ => false

/-- `findSymbolUsage` as the spec states it (claim C8): exactly the call
sites whose call expression satisfies `specMatchCall`. -/
def specFindSymbolUsage (m : PyModule) (symbol_path : String) : List CallSite :=
  let a := buildAliasMaps m
  (collectCalls m).filterMap (fun c =>
    match c with
    | PyExpr.call f _ l =>
        if specMatchCall a symbol_path f then
          some { symbol := symbol_path, line_number := l }
        else none
    | _ => none)

/-- Call matching as the code actually behaves (amended claim C8): a bare
name equal to the leaf name whose symbol-alias entry resolves to the symbol
path, is empty, or is absent; or an attribute call on a simple name equal to
the first segment of the module path, or whose module-alias resolution is
nonempty and shares that first segment. -/
def amendedMatchCall (a : AliasMaps) (module_name func_name symbol_path : String)
    (f : PyExpr) : Bool :=
  match f with
  | PyExpr.name n =>
      n = func_name &&
      (a.symbol_aliases.lookup n = some symbol_path ||
       a.symbol_aliases.lookup n = some "" ||
       a.symbol_aliases.lookup n = none)
  | PyExpr.attr (PyExpr.name obj) atName =>
      atName = func_name &&
      (obj = headSeg module_name ||
       (match a.import_aliases.lookup obj with
        | some resolved => resolved ≠ "" && headSeg resolved = headSeg module_name
        | none => false))
  | _ => false

/-- `findSymbolUsage` as amended (claim C8): empty for a dot-less path,
otherwise exactly the call sites whose call expression satisfies
`amendedMatchCall`. -/
def amendedFindSymbolUsage (m : PyModule) (symbol_path : String) :
    List CallSite :=
  let a := buildAliasMaps m
  let parts := splitOnDot symbol_path
  if parts.length < 2 then []
  else
    (collectCalls m).filterMap (fun c =>
      match c with
      | PyExpr.call f _ l =>
          if amendedMatchCall a (String.intercalate "." parts.dropLast)
              (parts.getLastD "") symbol_path f then
            some { symbol := symbol_path, line_number := l }
          else none
      | _ => none)

/-- `countFunctionCalls` as the spec states it (claim C9): each call
expression contributes exactly one when it is (a) a bare-name call whose
name, after alias resolution, ends with `"." + leafName`, or (b) an
attribute call whose attribute equals `leafName`. -/
def specCountFunctionCalls (m : PyModule) (leafName : String) : Nat :=
  let a := buildAliasMaps m
  (collectCalls m).countP (fun c =>
    match c with
    | PyExpr.call (PyExpr.name n) _ _ =>
        strEnds ((a.symbol_aliases.lookup n).getD n) ("." ++ leafName)
    | PyExpr.call (PyExpr.attr _ atName) _ _ => atName = leafName
    | _ => false)

/-- A call expression on a bare name literally equal to `leafName` (amended
claim C9). -/
def isBareNamed (leafName : String) : PyExpr → Bool
  | PyExpr.call (PyExpr.name n) _ _ => n = leafName
  | _ => false

/-- A call expression on a bare name whose symbol-alias entry (defaulting to
the empty string) ends with `"." + leafName` (amended claim C9). -/
def isBareAliased (a : AliasMaps) (leafName : String) : PyExpr → Bool
  | PyExpr.call (PyExpr.name n) _ _ =>
      strEnds ((a.symbol_aliases.lookup n).getD "") ("." ++ leafName)
  | _ => false

/-- A call expression on an attribute named `leafName` (amended claim
C9). -/
def isAttrNamed (leafName : String) : PyExpr → Bool
  | PyExpr.call (PyExpr.attr _ atName) _ _ => atName = leafName
  | _ => false

/-- `countFunctionCalls` as amended (claim C9): the sum of the three counts
over the call expressions; a single bare-name call can contribute to both of
the first two counts. -/
def amendedCountFunctionCalls (m : PyModule) (leafName : String) : Nat :=
  let a := buildAliasMaps m
  let calls := collectCalls m
  calls.countP (isBareNamed leafName) +
  calls.countP (isBareAliased a leafName) +
  calls.countP (isAttrNamed leafName)

/-! ## Theorems -/

/-- Looking the value string of a change type back up in the enum yields the
change type. -/
theorem changeType_value_roundtrip (ct : ChangeType) :
    changeTypeOfValue ct.value = some ct := by
  cases ct <;> rfl

/-- C7: for every list of APIChange values, deserializing the serialized
cache representation yields a field-for-field equal list, in the same
order. -/
theorem C7_serialize_roundtrip (changes : List APIChange) :
    deserialize_changes (serialize_changes changes) = changes := by
  induction changes with
  | nil => rfl
  | cons c cs ih =>
      simp only [serialize_changes, List.map_cons, deserialize_changes,
        List.flatMap_cons, changeType_value_roundtrip] at *
      simpa using ih

/-- Splitting a character list that holds no dot leaves it whole. -/
theorem splitDotChars_of_not_mem {l : List Char} (h : '.' ∉ l) :
    splitDotChars l = [l] := by
  induction l with
  | nil => rfl
  | cons c cs ih =>
      have hc : ¬(c = '.') := fun e => h (e ▸ List.mem_cons_self c cs)
      have hcs : '.' ∉ cs := fun m => h (List.mem_cons_of_mem _ m)
      simp [splitDotChars, hc, ih hcs]

/-- C10: for every source file and every symbol path containing no dot,
`find_symbol_usage` returns the empty list, whatever the file contains. -/
theorem C10_bare_module_no_usage (m : PyModule) (sp : String)
    (h : '.' ∉ sp.data) : find_symbol_usage m sp = [] := by
  have hsplit : splitOnDot sp = [String.mk sp.data] := by
    simp [splitOnDot, splitDotChars_of_not_mem h]
  simp [find_symbol_usage, hsplit]

/-- C10 witness: a file calling `requests(...)` yields no call site for the
bare module path `requests`. -/
theorem C10_bare_module_no_usage_witness :
    ('.' ∉ ("requests" : String).data) ∧
    find_symbol_usage [PyStmt.expr (PyExpr.call (PyExpr.name "requests") [] 1)]
      "requests" = [] :=
  ⟨by decide, C10_bare_module_no_usage _ _ (by decide)⟩

/-- C1 counterexample: the configuration whose three weights are all `1/2`
loads without any error — loading is a total function — and the loaded
weights sum to `3/2`, not `1`.  No weight-sum validation exists at
configuration-load time. -/
theorem C1_weight_sum_counterexample :
    configWeightSum
      (loadConfig (some ⟨some ⟨some (1/2), some (1/2), some (1/2)⟩⟩)) = 3/2
    ∧ (3/2 : ℚ) ≠ 1 := by
  constructor
  · norm_num [configWeightSum, loadConfig, configSemverWeight,
      configUsageWeight, configChangelogWeight]
  · norm_num

/-- C1 (amended): configuration loading performs no weight-sum validation
and never rejects a configuration — a file-supplied `risk_scoring` section
is accepted unchanged whatever its weights; the default weights sum to
`1.0`, but a loaded configuration can have weight sum `≠ 1`. -/
theorem C1_no_weight_validation :
    (∀ rs : RiskScoringSection, loadConfig (some ⟨some rs⟩) = ⟨some rs⟩)
    ∧ configWeightSum (loadConfig none) = 1
    ∧ ∃ rs : RiskScoringSection,
        configWeightSum (loadConfig (some ⟨some rs⟩)) ≠ 1 := by
  refine ⟨fun rs => rfl, ?_, ⟨⟨some (1/2), some (1/2), some (1/2)⟩, ?_⟩⟩
  · norm_num [configWeightSum, loadConfig, configSemverWeight,
      configUsageWeight, configChangelogWeight, defaultRiskScoring]
  · norm_num [configWeightSum, loadConfig, configSemverWeight,
      configUsageWeight, configChangelogWeight]

/-- A parse failure on either version string yields the all-zero version
distance. -/
theorem calculate_version_distance_of_bad (parse : String → Option (List Nat))
    (v1 v2 : String) (h : parse v1 = none ∨ parse v2 = none) :
    calculate_version_distance parse v1 v2 = ⟨0, 0, 0⟩ := by
  unfold calculate_version_distance
  rcases h with h | h
  · rw [h]
  · rw [h]
    cases parse v1 <;> rfl

/-- C4 (amended): for every dependency whose target version is present but
whose current or target version string fails to parse, `calculate_risk`
does not raise (the embedding is total) and its semver factor equals `10` —
the all-zero distance falls into the patch branch `min(10 + 0×2, 20)` — not
`0` as the spec states. -/
theorem C4_invalid_version_semver_ten (parse : String → Option (List Nat))
    (dep : Dependency) (tv : String)
    (htv : dep.target_version = some tv)
    (hbad : parse dep.current_version = none ∨ parse tv = none) :
    calculate_semver_risk parse dep = 10 := by
  unfold calculate_semver_risk
  rw [htv]
  simp only [calculate_version_distance_of_bad parse _ _ hbad]
  norm_num [ratMin]

/-- Version parser recognising only `2.0.0` (C4 example input). -/
def parseTwoOnly : String → Option (List Nat) :=
  fun s => if s = "2.0.0" then some [2, 0, 0] else none

/-- Dependency with an unparseable current version (C4 example input). -/
def depBadVersion : Dependency :=
  { name := "pkg", current_version := "not-a-version",
    target_version := some "2.0.0" }

/-- C4 counterexample: with target version `2.0.0` present and the current
version unparseable, the semver factor is `10`, not `0` as the claim
states. -/
theorem C4_zero_factor_counterexample :
    calculate_semver_risk parseTwoOnly depBadVersion = 10 ∧ (10 : ℚ) ≠ 0 := by
  constructor
  · have hd : calculate_version_distance parseTwoOnly "not-a-version" "2.0.0" =
        ⟨0, 0, 0⟩ := by decide
    simp only [calculate_semver_risk, depBadVersion, hd]
    norm_num [ratMin]
  · norm_num

/-- C4 witness: the amended theorem applied at the example input. -/
theorem C4_invalid_version_semver_ten_witness :
    depBadVersion.target_version = some "2.0.0"
    ∧ (parseTwoOnly depBadVersion.current_version = none
       ∨ parseTwoOnly "2.0.0" = none)
    ∧ calculate_semver_risk parseTwoOnly depBadVersion = 10 :=
  ⟨rfl, Or.inl (by decide),
    C4_invalid_version_semver_ten parseTwoOnly depBadVersion "2.0.0" rfl
      (Or.inl (by decide))⟩

/-- `ratMin` is bounded by its right argument. -/
theorem ratMin_le_right (a b : ℚ) : ratMin a b ≤ b := by
  unfold ratMin
  split_ifs with h
  · exact h
  · exact le_refl b

/-- A lower bound of both arguments bounds `ratMin`. -/
theorem le_ratMin {c a b : ℚ} (ha : c ≤ a) (hb : c ≤ b) : c ≤ ratMin a b := by
  unfold ratMin
  split_ifs with h
  · exact ha
  · exact hb

/-- `ratMin` is monotone in its left argument. -/
theorem ratMin_mono_left {a a' b : ℚ} (h : a ≤ a') :
    ratMin a b ≤ ratMin a' b := by
  unfold ratMin
  split_ifs with h1 h2 <;> linarith

/-- The semver factor of any dependency lies in `[0, 100]`. -/
theorem calculate_semver_risk_range (p : String → Option (List Nat))
    (d : Dependency) :
    0 ≤ calculate_semver_risk p d ∧ calculate_semver_risk p d ≤ 100 := by
  unfold calculate_semver_risk
  cases d.target_version with
  | none => norm_num
  | some tv =>
      set dist := calculate_version_distance p d.current_version tv with hd
      simp only
      split_ifs with h1 h2
      · have hM : (1 : ℚ) ≤ (dist.major : ℚ) := by exact_mod_cast h1
        constructor
        · exact le_ratMin (by linarith) (by norm_num)
        · exact ratMin_le_right _ _
      · have hm : (0 : ℚ) ≤ (dist.minor : ℚ) := by positivity
        constructor
        · exact le_ratMin (by linarith) (by norm_num)
        · exact le_trans (ratMin_le_right _ _) (by norm_num)
      · have hp : (0 : ℚ) ≤ (dist.patch : ℚ) := by positivity
        constructor
        · exact le_ratMin (by linarith) (by norm_num)
        · exact le_trans (ratMin_le_right _ _) (by norm_num)

/-- The spec's semver formula is non-decreasing in the major delta, the
other deltas held fixed. -/
theorem semverFormula_mono_major (a b dm dpc : Nat) (hab : a ≤ b) :
    semverFormula a dm dpc ≤ semverFormula b dm dpc := by
  unfold semverFormula
  by_cases ha : 1 ≤ a
  · have hb : 1 ≤ b := le_trans ha hab
    have hq : (a : ℚ) ≤ (b : ℚ) := by exact_mod_cast hab
    simp only [ha, hb, if_pos]
    exact ratMin_mono_left (by linarith)
  · by_cases hb : 1 ≤ b
    · have hbq : (1 : ℚ) ≤ (b : ℚ) := by exact_mod_cast hb
      simp only [ha, hb, if_pos, if_neg, not_false_iff]
      have hub : (if 1 ≤ dm then ratMin (40 + (dm : ℚ) * 5) 60
          else ratMin (10 + (dpc : ℚ) * 2) 20) ≤ 60 := by
        split_ifs
        · exact ratMin_le_right _ _
        · exact le_trans (ratMin_le_right _ _) (by norm_num)
      have hlb : (80 : ℚ) ≤ ratMin (80 + ((b : ℚ) - 1) * 20) 100 :=
        le_ratMin (by linarith) (by norm_num)
      linarith
    · simp only [ha, hb, if_neg, not_false_iff]
      exact le_refl _

/-- C3: with a present target version and parseable current/target versions,
the semver factor equals the piecewise formula over the absolute
release-component differences; the factor always lies in `[0, 100]`; and the
formula is non-decreasing in the major delta with the other deltas fixed. -/
theorem C3_semver_factor_formula (parse : String → Option (List Nat))
    (dep : Dependency) (tv : String) (r1 r2 : List Nat)
    (htv : dep.target_version = some tv)
    (h1 : parse dep.current_version = some r1)
    (h2 : parse tv = some r2) :
    calculate_semver_risk parse dep =
      semverFormula (Nat.dist (relComp r2 0) (relComp r1 0))
        (Nat.dist (relComp r2 1) (relComp r1 1))
        (Nat.dist (relComp r2 2) (relComp r1 2))
    ∧ (∀ (p : String → Option (List Nat)) (d : Dependency),
        0 ≤ calculate_semver_risk p d ∧ calculate_semver_risk p d ≤ 100)
    ∧ (∀ (p : String → Option (List Nat)) (d : Dependency),
        d.target_version = none → calculate_semver_risk p d = 0)
    ∧ (∀ a b dm dpc : Nat, a ≤ b →
        semverFormula a dm dpc ≤ semverFormula b dm dpc) := by
  refine ⟨?_, calculate_semver_risk_range, ?_, semverFormula_mono_major⟩
  · simp only [calculate_semver_risk, htv, calculate_version_distance, h1, h2]
    unfold semverFormula
    split_ifs <;> first | rfl | omega
  · intro p d hnone
    unfold calculate_semver_risk
    rw [hnone]

/-- Version parser for the C3 example input. -/
def parseC3 : String → Option (List Nat) := fun s =>
  if s = "1.0.0" then some [1, 0, 0]
  else if s = "3.0.0" then some [3, 0, 0]
  else none

/-- Dependency upgraded from 1.0.0 to 3.0.0 (C3 example input). -/
def depC3 : Dependency :=
  { name := "requests", current_version := "1.0.0",
    target_version := some "3.0.0" }

/-- C3 witness: the theorem applied at the `1.0.0 → 3.0.0` example. -/
theorem C3_semver_factor_formula_witness :
    (depC3.target_version = some "3.0.0"
     ∧ parseC3 depC3.current_version = some [1, 0, 0]
     ∧ parseC3 "3.0.0" = some [3, 0, 0])
    ∧ (calculate_semver_risk parseC3 depC3 =
        semverFormula (Nat.dist (relComp [3, 0, 0] 0) (relComp [1, 0, 0] 0))
          (Nat.dist (relComp [3, 0, 0] 1) (relComp [1, 0, 0] 1))
          (Nat.dist (relComp [3, 0, 0] 2) (relComp [1, 0, 0] 2))
       ∧ (∀ (p : String → Option (List Nat)) (d : Dependency),
           0 ≤ calculate_semver_risk p d ∧ calculate_semver_risk p d ≤ 100)
       ∧ (∀ (p : String → Option (List Nat)) (d : Dependency),
           d.target_version = none → calculate_semver_risk p d = 0)
       ∧ (∀ a b dm dpc : Nat, a ≤ b →
           semverFormula a dm dpc ≤ semverFormula b dm dpc)) :=
  ⟨⟨rfl, by decide, by decide⟩,
    C3_semver_factor_formula parseC3 depC3 "3.0.0" [1, 0, 0] [3, 0, 0] rfl
      (by decide) (by decide)⟩

/-- Version parser for the C5 scenario (`1.0.0 → 3.0.0`). -/
def parseC5 : String → Option (List Nat) := fun s =>
  if s = "1.0.0" then some [1, 0, 0]
  else if s = "3.0.0" then some [3, 0, 0]
  else none

/-- Dependency of the C5 scenario. -/
def depC5 : Dependency :=
  { name := "pkg", current_version := "1.0.0", target_version := some "3.0.0" }

/-- The one used symbol of the C5 scenario. -/
def nodeC5 : UsageNode :=
  { package_name := "pkg", symbol_path := "pkg.func", file_path := "app.py",
    line_numbers := [4], call_count := 1 }

/-- The removed change on the used symbol of the C5 scenario. -/
def changeC5 : APIChange :=
  { symbol_name := "pkg.func", change_type := ChangeType.removed,
    old_signature := some "(url)" }

/-- C5: the total score is always the weighted sum of the three factor
scores (equivalently, the sum of `score × weight` over the factors list) and
the severity is determined solely by the fixed thresholds on the total
score; in the scenario `1.0.0 → 3.0.0` with a removed used symbol and no
changelog entries, the default weights give total `80` and severity
critical. -/
theorem C5_weighted_total_and_severity :
    (∀ (w : RiskWeights) (parse : String → Option (List Nat))
        (dep : Dependency) (nodes : List UsageNode)
        (changes : List APIChange) (entries : List ChangelogEntry),
        (calculate_risk w parse dep nodes changes entries).total_score =
          calculate_semver_risk parse dep * w.semver_weight
          + calculate_usage_impact nodes changes * w.usage_weight
          + calculate_changelog_severity entries * w.changelog_weight
        ∧ (calculate_risk w parse dep nodes changes entries).total_score =
            ((calculate_risk w parse dep nodes changes entries).factors.map
              (fun f => f.score * f.weight)).sum
        ∧ (calculate_risk w parse dep nodes changes entries).severity =
            RiskScore.from_score
              (calculate_risk w parse dep nodes changes entries).total_score)
    ∧ (∀ s : ℚ, RiskScore.from_score s =
        if s ≥ 80 then Severity.critical
        else if s ≥ 60 then Severity.high
        else if s ≥ 30 then Severity.medium
        else Severity.low)
    ∧ (calculate_risk defaultWeights parseC5 depC5 [nodeC5] [changeC5]
        []).total_score = 80
    ∧ (calculate_risk defaultWeights parseC5 depC5 [nodeC5] [changeC5]
        []).severity = Severity.critical := by
  have hsem : calculate_semver_risk parseC5 depC5 = 100 := by
    have h1 : calculate_version_distance parseC5 "1.0.0" "3.0.0" =
        { major := 2, minor := 0, patch := 0 } := by decide
    simp only [calculate_semver_risk, depC5, h1]
    norm_num [ratMin]
  have husage : calculate_usage_impact [nodeC5] [changeC5] = 100 := by
    have h : ([changeC5].countP
        (fun c => c.symbol_name ∈ [nodeC5].map (fun n => n.symbol_path) ∧
          c.change_type = ChangeType.removed)) = 1 := by decide
    simp only [calculate_usage_impact]
    norm_num [h, nodeC5, changeC5]
  have htot : (calculate_risk defaultWeights parseC5 depC5 [nodeC5] [changeC5]
      []).total_score = 80 := by
    have hc : calculate_changelog_severity [] = 0 := rfl
    simp only [calculate_risk, List.map_cons, List.map_nil, List.sum_cons,
      List.sum_nil, hsem, husage, hc, defaultWeights]
    norm_num
  refine ⟨?_, fun s => rfl, htot, ?_⟩
  · intro w parse dep nodes changes entries
    refine ⟨?_, rfl, rfl⟩
    simp only [calculate_risk, List.map_cons, List.map_nil, List.sum_cons,
      List.sum_nil]
    ring
  · have hsev : (calculate_risk defaultWeights parseC5 depC5 [nodeC5] [changeC5]
        []).severity =
        RiskScore.from_score (calculate_risk defaultWeights parseC5 depC5
          [nodeC5] [changeC5] []).total_score := rfl
    rw [hsev, htot]
    norm_num [RiskScore.from_score]

/-- A positive occurrence count and a boolean existence test over a list
agree. -/
theorem countP_pos_iff_any {α : Type} (p : α → Bool) (l : List α) :
    0 < l.countP p ↔ l.any p = true := by
  simp [List.countP_pos_iff, List.any_eq_true]

/-- C2: over change lists drawn from the spec's change-type domain (no
`added` records — the differ never emits them), the usage-impact factor is
exactly the spec's priority classification: any matching removed change
gives 100; else any matching modified gives `min(70 + 10×countModified,
90)`; else any matching deprecated gives `min(40 + 10×countDeprecated,
60)`; else 10 when changes exist but none matches a used symbol; else 0 for
an empty change list. -/
theorem C2_usage_impact_formula (nodes : List UsageNode)
    (changes : List APIChange)
    (h : ∀ c ∈ changes, c.change_type ≠ ChangeType.added) :
    calculate_usage_impact nodes changes = specUsageImpact nodes changes := by
  by_cases hE : changes = []
  · subst hE
    simp [calculate_usage_impact, specUsageImpact]
  · simp only [calculate_usage_impact, specUsageImpact, if_neg hE, gt_iff_lt,
      countP_pos_iff_any]
    split_ifs with hr hm hd hlast
    · rfl
    · congr 1
      ring
    · congr 1
      ring
    · rfl
    · exfalso
      apply hlast
      refine ⟨hE, ?_⟩
      rw [List.all_eq_true]
      intro c hc
      simp only [decide_eq_true_eq]
      intro hmem
      cases hct : c.change_type
      · exact hr (by
          rw [List.any_eq_true]
          exact ⟨c, hc, by simp [hmem, hct]⟩)
      · exact hm (by
          rw [List.any_eq_true]
          exact ⟨c, hc, by simp [hmem, hct]⟩)
      · exact hd (by
          rw [List.any_eq_true]
          exact ⟨c, hc, by simp [hmem, hct]⟩)
      · exact h c hc hct

/-- Used symbol for the C2 witness. -/
def nodeC2 : UsageNode :=
  { package_name := "a", symbol_path := "a.b", file_path := "f.py" }

/-- Removed change on the used symbol for the C2 witness. -/
def changeC2 : APIChange :=
  { symbol_name := "a.b", change_type := ChangeType.removed }

/-- C2 witness: the theorem applied at one used symbol with one removed
change. -/
theorem C2_usage_impact_formula_witness :
    (∀ c ∈ [changeC2], c.change_type ≠ ChangeType.added)
    ∧ calculate_usage_impact [nodeC2] [changeC2] =
        specUsageImpact [nodeC2] [changeC2] :=
  ⟨by decide, C2_usage_impact_formula [nodeC2] [changeC2] (by decide)⟩

/-- Every change emitted for one symbol path carries that path as its
symbol name. -/
theorem detectChangesAt_symbol_name (old_api new_api : ApiObj) (sp : String) :
    ∀ c ∈ detectChangesAt old_api new_api sp, c.symbol_name = sp := by
  intro c hc
  unfold detectChangesAt at hc
  rcases hO : getSymbol old_api sp with _ | o <;>
    rcases hN : getSymbol new_api sp with _ | n <;>
      rw [hO, hN] at hc <;> simp at hc
  · rcases hc with rfl
    rfl
  · rcases hc with ⟨-, rfl⟩ | ⟨-, rfl⟩ <;> rfl

/-- Filtering the concatenation over a duplicate-free path list by one
symbol name keeps exactly that path's records. -/
theorem flatMap_filter_nodup (g : String → List APIChange) (sp : String)
    (hg : ∀ x, ∀ c ∈ g x, c.symbol_name = x) :
    ∀ L : List String, L.Nodup →
      (L.flatMap g).filter (fun c => c.symbol_name = sp) =
        if sp ∈ L then g sp else [] := by
  intro L
  induction L with
  | nil =>
      intro _
      simp
  | cons x xs ih =>
      intro hnd
      rcases List.nodup_cons.mp hnd with ⟨hx, hxs⟩
      rw [List.flatMap_cons, List.filter_append, ih hxs]
      by_cases hsp : sp = x
      · subst hsp
        have h1 : (g sp).filter (fun c => c.symbol_name = sp) = g sp := by
          apply List.filter_eq_self.mpr
          intro c hc
          simp [hg sp c hc]
        simp [h1, hx]
      · have h1 : (g x).filter (fun c => c.symbol_name = sp) = [] := by
          apply List.filter_eq_nil_iff.mpr
          intro c hc
          simp only [hg x c hc, decide_eq_true_eq]
          exact fun e => hsp (Eq.symm e)
        rw [h1]
        simp [List.mem_cons, hsp]

/-- C6: for every pair of API snapshots and every used-symbol set, the diff
contains, for each symbol path, exactly the records the spec prescribes: a
removed record (with the old signature) when the used symbol is present in
the old snapshot and absent from the new; for a used symbol present in
both, a modified record (with both signatures) iff the signatures differ
and, independently, a deprecated record iff the new symbol is flagged
deprecated; nothing for a used symbol absent from the old snapshot; and
nothing at all for a path outside the used-symbol set. -/
theorem C6_diff_emits_exactly (old_api new_api : ApiObj)
    (used : List UsageNode) (sp : String) :
    (detect_changes old_api new_api used).filter
        (fun c => c.symbol_name = sp) =
      if sp ∈ used.map (fun n => n.symbol_path) then
        match getSymbol old_api sp, getSymbol new_api sp with
        | some o, none =>
            [{ symbol_name := sp, change_type := ChangeType.removed,
               old_signature := some (getSignature (some o)),
               description := s!"Symbol {sp} was removed" }]
        | some o, some n =>
            (if getSignature (some o) ≠ getSignature (some n) then
              [{ symbol_name := sp, change_type := ChangeType.modified,
                 old_signature := some (getSignature (some o)),
                 new_signature := some (getSignature (some n)),
                 description := s!"Signature changed for {sp}" }]
             else []) ++
            (if isDeprecatedObj (some n) then
              [{ symbol_name := sp, change_type := ChangeType.deprecated,
                 new_signature := some (getSignature (some n)),
                 description := s!"{sp} is now deprecated" }]
             else [])
        | none, _ => []
      else [] := by
  unfold detect_changes
  rw [flatMap_filter_nodup (detectChangesAt old_api new_api) sp
    (fun x c hc => detectChangesAt_symbol_name old_api new_api x c hc) _
    (List.nodup_dedup _)]
  simp only [List.mem_dedup]
  rfl

/-- C8 counterexample: in a file whose only statement is the bare call
`get()` with no import at all, `find_symbol_usage` reports a call site for
`requests.get` even though no alias resolves to it — the spec's
characterization (`specFindSymbolUsage`) reports none. -/
theorem C8_spec_matching_counterexample :
    find_symbol_usage [PyStmt.expr (PyExpr.call (PyExpr.name "get") [] 1)]
        "requests.get" = [{ symbol := "requests.get", line_number := 1 }]
    ∧ specFindSymbolUsage [PyStmt.expr (PyExpr.call (PyExpr.name "get") [] 1)]
        "requests.get" = []
    ∧ find_symbol_usage [PyStmt.expr (PyExpr.call (PyExpr.name "get") [] 1)]
          "requests.get" ≠
        specFindSymbolUsage
          [PyStmt.expr (PyExpr.call (PyExpr.name "get") [] 1)]
          "requests.get" :=
  ⟨by decide, by decide, by decide⟩

/-- The source's call matcher agrees pointwise with the amended matcher. -/
theorem isMatchingCall_eq_amended (a : AliasMaps) (f : PyExpr)
    (module_name func_name symbol_path : String) :
    isMatchingCall a f module_name func_name symbol_path =
      amendedMatchCall a module_name func_name symbol_path f := by
  cases f with
  | name n =>
      simp only [isMatchingCall, amendedMatchCall]
      by_cases hn : n = func_name
      · cases h : a.symbol_aliases.lookup n <;> simp [hn, h]
      · simp [hn]
  | attr v atName =>
      cases v with
      | name obj =>
          simp only [isMatchingCall, amendedMatchCall]
          by_cases hat : atName = func_name
          · by_cases hobj : obj = headSeg module_name
            · simp [hat, hobj]
            · cases h : a.import_aliases.lookup obj <;> simp [hat, hobj, h]
          · simp [hat]
      | attr v2 at2 => simp [isMatchingCall, amendedMatchCall]
      | call f2 a2 l2 => simp [isMatchingCall, amendedMatchCall]
      | lit t => simp [isMatchingCall, amendedMatchCall]
  | call f2 a2 l2 => rfl
  | lit t => rfl

/-- C8 (amended): `find_symbol_usage` returns exactly the call sites whose
call expression satisfies the amended matching rule — a bare name equal to
the leaf name whose symbol-alias entry resolves to the symbol path, is
empty, or is absent; or an attribute call on a simple name equal to the
first segment of the module prefix, or with a nonempty module-alias
resolution sharing that first segment — and the `import numpy as np` /
`np.array([1,2,3])` file attributes its call to the canonical path
`numpy.array`, never to the local alias. -/
theorem C8_call_matching_amended :
    (∀ (m : PyModule) (sp : String),
        find_symbol_usage m sp = amendedFindSymbolUsage m sp)
    ∧ find_symbol_usage
        [PyStmt.imp [("numpy", some "np")],
         PyStmt.expr (PyExpr.call (PyExpr.attr (PyExpr.name "np") "array")
           [PyExpr.lit "[1, 2, 3]"] 2)] "numpy.array" =
      [{ symbol := "numpy.array", line_number := 2 }] := by
  constructor
  · intro m sp
    unfold find_symbol_usage amendedFindSymbolUsage
    by_cases h2 : (splitOnDot sp).length < 2
    · simp [h2]
    · simp only [if_neg h2]
      congr 1
      funext c
      cases c <;> simp [isMatchingCall_eq_amended]
  · decide

/-- The per-call increment of `count_function_calls` splits into the three
indicator counts of the amended claim. -/
theorem callContribution_split (a : AliasMaps) (fn : String) (c : PyExpr) :
    callContribution a fn c =
      (if isBareNamed fn c then 1 else 0) +
      (if isBareAliased a fn c then 1 else 0) +
      (if isAttrNamed fn c then 1 else 0) := by
  cases c with
  | call f args l =>
      cases f <;>
        simp [callContribution, isBareNamed, isBareAliased, isAttrNamed]
  | name n => rfl
  | attr v atName => rfl
  | lit t => rfl

/-- Folding the per-call increments over a call list yields the three
counts. -/
theorem foldl_callContribution (a : AliasMaps) (fn : String) :
    ∀ (l : List PyExpr) (n : Nat),
      l.foldl (fun cnt c => cnt + callContribution a fn c) n =
        n + l.countP (isBareNamed fn) + l.countP (isBareAliased a fn) +
          l.countP (isAttrNamed fn) := by
  intro l
  induction l with
  | nil =>
      intro n
      simp
  | cons c cs ih =>
      intro n
      rw [List.foldl_cons, ih, callContribution_split]
      simp only [List.countP_cons]
      split_ifs <;> omega

/-- C9 counterexample: in the file `from requests import get` followed by
the single call `get("x")`, the code counts the one call expression twice
(once for the literal name, once for its alias resolution), while the
spec's characterization counts it once. -/
theorem C9_count_counterexample :
    count_function_calls
        [PyStmt.impFrom (some "requests") [("get", none)],
         PyStmt.expr (PyExpr.call (PyExpr.name "get") [PyExpr.lit "x"] 2)]
        "get" = 2
    ∧ specCountFunctionCalls
        [PyStmt.impFrom (some "requests") [("get", none)],
         PyStmt.expr (PyExpr.call (PyExpr.name "get") [PyExpr.lit "x"] 2)]
        "get" = 1
    ∧ (2 : Nat) ≠ 1 :=
  ⟨by decide, by decide, by decide⟩

/-- C9 (amended): `count_function_calls` equals the sum of three counts over
the call expressions — bare-name calls literally named `leafName`, bare-name
calls whose symbol-alias entry ends with `"." + leafName`, and attribute
calls whose attribute equals `leafName` — so a single bare-name call can
contribute two. -/
theorem C9_count_calls_amended (m : PyModule) (leafName : String) :
    count_function_calls m leafName = amendedCountFunctionCalls m leafName := by
  simp only [count_function_calls, amendedCountFunctionCalls]
  rw [foldl_callContribution]
  omega

end UpgradeAnalyzer
